import Mathlib

/-!
Verification development for the RedisBloom module command layer
(`src/rebloom.c`).  The command layer (key lookup, argument dispatch,
reply construction, RDB/AOF hooks) is embedded directly from the C
source.  The filter engines (`sb.c` / `cf.c`) are not part of the
repository snapshot; where an operation of theirs is needed it is
modelled from the specification and marked as such in its doc comment.
-/

/-- Items are byte strings, represented as lists of byte values. -/
abbrev Item := List Nat

/-- Lookup statuses, from the `lookupStatus` enum in rebloom.c. -/
def SB_OK : Nat := 0

/-- Lookup status: the key object was NULL. -/
def SB_MISSING : Nat := 1

/-- Lookup status: the key holds no value. -/
def SB_EMPTY : Nat := 2

/-- Lookup status: the key holds a value of another type. -/
def SB_MISMATCH : Nat := 3

/-- From the host header redismodule.h: `REDISMODULE_OK` is 0. -/
def REDISMODULE_OK : Nat := 0

/-- The host's wrong-type error message (`REDISMODULE_ERRORMSG_WRONGTYPE`). -/
def wrongTypeMsg : String :=
  "WRONGTYPE Operation against a key holding the wrong kind of value"

/-- `statusStrerror` from rebloom.c. -/
def statusStrerror (status : Nat) : String :=
  if status = SB_MISSING ∨ status = SB_EMPTY then "ERR not found"
  else if status = SB_MISMATCH then wrongTypeMsg
  else if status = SB_OK then "ERR item exists"
  else "Unknown error"

/-- `CUCKOO_BKTSIZE`: slots per cuckoo bucket (compile-time constant 2). -/
def CUCKOO_BKTSIZE : Nat := 2

/-- The `CuckooFilter` struct.  Each sub-filter is its flat bucket-array
byte string: bucket `i` occupies indices `i * CUCKOO_BKTSIZE ..`; a zero
byte is an empty slot. -/
structure CuckooFilter where
  numBuckets : Nat
  numItems : Nat
  numDeletes : Nat
  numFilters : Nat
  filters : List (List Nat)
deriving DecidableEq

/-- Modelled from the spec: the fingerprint is the bottom 8 bits of the
hash, with 0 mapped to 1 (0 denotes an empty slot).  `cf.c` is not in
the repository snapshot. -/
def fingerprint (h : Nat) : Nat :=
  if h % 256 = 0 then 1 else h % 256

/-- Modelled from the spec: `alt(i, fp) = (i XOR hash32(fp)) mod numBuckets`.
The 32-bit fingerprint hash is kept abstract as the parameter `fpHash`. -/
def altIndex (fpHash : Nat → Nat) (numBuckets i fp : Nat) : Nat :=
  (i ^^^ fpHash fp) % numBuckets

/-- Whether bucket `i` of a flat sub-filter contains fingerprint `fp`. -/
def bucketHas (sf : List Nat) (i fp : Nat) : Bool :=
  (List.range CUCKOO_BKTSIZE).any (fun s => sf.getD (i * CUCKOO_BKTSIZE + s) 0 = fp)

/-- Number of slots of bucket `i` holding fingerprint `fp`. -/
def bucketCount (sf : List Nat) (i fp : Nat) : Nat :=
  ((List.range CUCKOO_BKTSIZE).filter (fun s => sf.getD (i * CUCKOO_BKTSIZE + s) 0 = fp)).length

/-- Place `fp` in the first empty slot of bucket `i`, if any. -/
def bucketPlace (sf : List Nat) (i fp : Nat) : Option (List Nat) :=
  ((List.range CUCKOO_BKTSIZE).find? (fun s => sf.getD (i * CUCKOO_BKTSIZE + s) 0 = 0)).map
    (fun s => sf.set (i * CUCKOO_BKTSIZE + s) fp)

/-- Modelled from the spec: sub-filter `Check(fp, h)` over the two
candidate buckets. -/
def subCheck (fpHash : Nat → Nat) (numBuckets : Nat) (sf : List Nat) (fp h : Nat) : Bool :=
  let i1 := h % numBuckets
  bucketHas sf i1 fp || bucketHas sf (altIndex fpHash numBuckets i1 fp) fp

/-- Modelled from the spec: sub-filter `Count(fp, h)` sums slot
occurrences across the two candidate buckets. -/
def subCount (fpHash : Nat → Nat) (numBuckets : Nat) (sf : List Nat) (fp h : Nat) : Nat :=
  let i1 := h % numBuckets
  bucketCount sf i1 fp + bucketCount sf (altIndex fpHash numBuckets i1 fp) fp

/-- Modelled from the spec: the fixed kick budget bounding the
random-walk eviction loop. -/
def cuckooKickBudget : Nat := 500

/-- Modelled from the spec: `TryInsert` with its random choices made
deterministic (the victim is always slot 0 of the current bucket).  On
budget exhaustion it returns `none` and the caller keeps the original
sub-filter, matching the spec's intact-state guarantee. -/
def tryInsertGo (fpHash : Nat → Nat) (numBuckets : Nat) :
    Nat → List Nat → Nat → Nat → Option (List Nat)
  | 0, _, _, _ => none
  | fuel + 1, sf, i, fp =>
    match bucketPlace sf i fp with
    | some sf' => some sf'
    | none =>
      match bucketPlace sf (altIndex fpHash numBuckets i fp) fp with
      | some sf' => some sf'
      | none =>
        let victim := sf.getD (i * CUCKOO_BKTSIZE) 0
        tryInsertGo fpHash numBuckets fuel (sf.set (i * CUCKOO_BKTSIZE) fp)
          (altIndex fpHash numBuckets i victim) victim

/-- Modelled from the spec: `CuckooFilter_Check` iterates sub-filters,
short-circuiting on a hit. -/
def CuckooFilter_Check (fpHash : Nat → Nat) (cf : CuckooFilter) (h : Nat) : Bool :=
  cf.filters.any (fun sf => subCheck fpHash cf.numBuckets sf (fingerprint h) h)

/-- Modelled from the spec: `CuckooFilter_Count` sums over sub-filters. -/
def CuckooFilter_Count (fpHash : Nat → Nat) (cf : CuckooFilter) (h : Nat) : Nat :=
  (cf.filters.map (fun sf => subCount fpHash cf.numBuckets sf (fingerprint h) h)).sum

/-- Result of a cuckoo insertion (`CuckooInsertStatus`). -/
inductive CuckooInsertStatus where
  | Inserted
  | Exists
  | NoSpace
deriving DecidableEq

/-- Try each sub-filter in order, rebuilding the list on the first
success. -/
def insertLoop (fpHash : Nat → Nat) (numBuckets fp h : Nat) :
    List (List Nat) → Option (List (List Nat))
  | [] => none
  | sf :: rest =>
    match tryInsertGo fpHash numBuckets cuckooKickBudget sf (h % numBuckets) fp with
    | some sf' => some (sf' :: rest)
    | none => (insertLoop fpHash numBuckets fp h rest).map (fun l => sf :: l)

/-- Modelled from the spec: duplicate-permitting `CuckooFilter_Insert`;
on failure in every sub-filter a new sub-filter of the same size is
appended and retried, and only if that also fails is `NoSpace` returned
with the filter unchanged. -/
def CuckooFilter_Insert (fpHash : Nat → Nat) (cf : CuckooFilter) (h : Nat) :
    CuckooInsertStatus × CuckooFilter :=
  let fp := fingerprint h
  match insertLoop fpHash cf.numBuckets fp h cf.filters with
  | some fs => (.Inserted, { cf with filters := fs, numItems := cf.numItems + 1 })
  | none =>
    let fresh := List.replicate (cf.numBuckets * CUCKOO_BKTSIZE) 0
    match tryInsertGo fpHash cf.numBuckets cuckooKickBudget fresh (h % cf.numBuckets) fp with
    | some sf' =>
      (.Inserted, { cf with filters := cf.filters ++ [sf'],
                            numFilters := cf.numFilters + 1,
                            numItems := cf.numItems + 1 })
    | none => (.NoSpace, cf)

/-- Modelled from the spec: `CuckooFilter_InsertUnique` first checks all
sub-filters and returns `Exists` without mutation when present. -/
def CuckooFilter_InsertUnique (fpHash : Nat → Nat) (cf : CuckooFilter) (h : Nat) :
    CuckooInsertStatus × CuckooFilter :=
  if CuckooFilter_Check fpHash cf h then (.Exists, cf)
  else CuckooFilter_Insert fpHash cf h

/-- One layer of the scaling bloom chain, modelled from the spec
(`sb.c` is not in the repository snapshot).  `vec` is the bit vector. -/
structure BloomLayer where
  entries : Nat
  error : Rat
  hashes : Nat
  bits : Nat
  vec : List Bool
  size : Nat
deriving DecidableEq

/-- The scaling bloom chain, modelled from the spec. -/
structure BloomChain where
  filters : List BloomLayer
  size : Nat
  growth : Nat
  tightening : Rat
deriving DecidableEq

/-- Modelled from the spec: `SB_NewChain` creates a chain with one layer
sized from `(capacity, errorRate)`.  The layer sizing involves
logarithms, so the `(bits, hashes)` computation stays abstract as the
parameter `sizing`. -/
def SB_NewChain (sizing : Nat → Rat → Nat × Nat) (capacity : Nat) (errorRate : Rat) :
    BloomChain :=
  let s := sizing capacity errorRate
  ⟨[⟨capacity, errorRate, s.2, s.1, List.replicate s.1 false, 0⟩], 0, 2, 1 / 2⟩

/-- The k probe positions of a layer for base hashes `h1, h2`:
`(h1 + i*h2) mod bits`. -/
def layerProbes (l : BloomLayer) (h1 h2 : Nat) : List Nat :=
  (List.range l.hashes).map (fun i => (h1 + i * h2) % l.bits)

/-- Modelled from the spec: a layer reports present iff all probed bits
are set. -/
def BloomLayer_Check (l : BloomLayer) (h1 h2 : Nat) : Bool :=
  (layerProbes l h1 h2).all (fun p => l.vec.getD p false)

/-- Modelled from the spec: layer `Add` sets all probes and reports 1
iff some probed bit was previously 0. -/
def BloomLayer_Add (l : BloomLayer) (h1 h2 : Nat) : Bool × BloomLayer :=
  let isNew := (layerProbes l h1 h2).any (fun p => l.vec.getD p false = false)
  (isNew, { l with vec := (layerProbes l h1 h2).foldl (fun v p => v.set p true) l.vec,
                   size := l.size + 1 })

/-- Modelled from the spec: chain `Check` is a disjunction over layers. -/
def SBChain_Check (sb : BloomChain) (h1 h2 : Nat) : Bool :=
  sb.filters.any (fun l => BloomLayer_Check l h1 h2)

/-- Modelled from the spec: append a new layer sized
`(entries_last * growth, error_last * tightening)`. -/
def chainGrow (sizing : Nat → Rat → Nat × Nat) (sb : BloomChain) : BloomChain :=
  match sb.filters.getLast? with
  | none => sb
  | some l =>
    let entries := l.entries * sb.growth
    let error := l.error * sb.tightening
    let s := sizing entries error
    { sb with filters :=
        sb.filters ++ [⟨entries, error, s.2, s.1, List.replicate s.1 false, 0⟩] }

/-- Modelled from the spec: chain `Add` grows when every layer is
saturated, then adds to the newest layer and bumps the sizes. -/
def SBChain_Add (sizing : Nat → Rat → Nat × Nat) (sb : BloomChain) (h1 h2 : Nat) :
    Bool × BloomChain :=
  let sb := if sb.filters.any (fun l => l.size < l.entries) then sb else chainGrow sizing sb
  match sb.filters.getLast? with
  | none => (false, sb)
  | some l =>
    let r := BloomLayer_Add l h1 h2
    (r.1, { sb with filters := sb.filters.dropLast ++ [r.2], size := sb.size + 1 })

/-- The value a key holds: absent, a bloom chain, a cuckoo filter, or a
value of some other type. -/
inductive KeyState where
  | empty
  | bloom (sb : BloomChain)
  | cuckoo (cf : CuckooFilter)
  | other
deriving DecidableEq

/-- `bfGetChain` / `getValue` from rebloom.c specialised to the bloom
type: status together with the chain when the status is `SB_OK`. -/
def bfGetChain : KeyState → Nat × Option BloomChain
  | .empty => (SB_EMPTY, none)
  | .bloom sb => (SB_OK, some sb)
  | _ => (SB_MISMATCH, none)

/-- `cfGetFilter` from rebloom.c specialised to the cuckoo type. -/
def cfGetFilter : KeyState → Nat × Option CuckooFilter
  | .empty => (SB_EMPTY, none)
  | .cuckoo cf => (SB_OK, some cf)
  | _ => (SB_MISMATCH, none)

/-- Whether the key holds a bloom chain. -/
def isBloomState : KeyState → Bool
  | .bloom _ => true
  | _ => false

/-- Whether the key holds a cuckoo filter. -/
def isCuckooState : KeyState → Bool
  | .cuckoo _ => true
  | _ => false

/-- A single protocol reply element as emitted by the command handlers. -/
inductive Reply where
  | simple (s : String)
  | err (s : String)
  | int (n : Int)
  | arrayHeader (n : Nat)
  | wrongArity
deriving DecidableEq

/-- Whether a reply is an error reply. -/
def Reply.isErr : Reply → Bool
  | .err _ => true
  | _ => false

/-- Module-level bloom defaults (`BFDefaultErrorRate`,
`BFDefaultInitCapacity`). -/
structure ModuleConfig where
  errorRate : Rat
  initCapacity : Nat
deriving DecidableEq

/-- The compiled-in defaults: error rate 0.01, initial capacity 100. -/
def defaultConfig : ModuleConfig := ⟨1 / 100, 100⟩

/-- `CFDefaultInitCapacity` from rebloom.c. -/
def CFDefaultInitCapacity : Nat := 1000

/-- One parsed load-time option pair; `none` payloads stand for values
the host failed to parse. -/
inductive LoadOpt where
  | initialSize (v : Option Int)
  | errorRate (v : Option Rat)
  | unknown

/-- The option-processing loop of `RedisModule_OnLoad`: `initial_size`
must be > 0, `error_rate` must be > 0, anything else aborts the load. -/
def processLoadArgs : List LoadOpt → ModuleConfig → Option ModuleConfig
  | [], cfg => some cfg
  | .initialSize none :: _, _ => none
  | .initialSize (some v) :: rest, cfg =>
    if 0 < v then processLoadArgs rest { cfg with initCapacity := v.toNat } else none
  | .errorRate none :: _, _ => none
  | .errorRate (some d) :: rest, cfg =>
    if 0 < d then processLoadArgs rest { cfg with errorRate := d } else none
  | .unknown :: _, _ => none

/-- C's conversion of a `long long` to `size_t` (reduction mod 2^64). -/
def toSizeT (i : Int) : Nat := (i % (2 ^ 64 : Int)).toNat

/-- `UINT32_MAX`. -/
def UINT32_MAX : Nat := 4294967295

/-- Fuelled helper for `nextPow2`. -/
def nextPow2Go : Nat → Nat → Nat → Nat
  | 0, _, acc => acc
  | fuel + 1, n, acc => if n ≤ acc then acc else nextPow2Go fuel n (2 * acc)

/-- The least power of two that is ≥ max(n, 1). -/
def nextPow2 (n : Nat) : Nat := nextPow2Go n n 1

/-- Modelled from the spec: `CuckooFilter_Init` (cf.c, absent from the
snapshot): `numBuckets = nextPow2(capacity / B)` and one zeroed
sub-filter. -/
def cfCreate (cap : Nat) : CuckooFilter :=
  let nb := nextPow2 (cap / CUCKOO_BKTSIZE)
  ⟨nb, 0, 0, 1, [List.replicate (nb * CUCKOO_BKTSIZE) 0]⟩

/-- `BFReserve_RedisCommand`: argument validation, then key lookup, then
chain creation.  `none` arguments stand for strings the host failed to
parse. -/
def bfReserve (sizing : Nat → Rat → Nat × Nat) (errArg : Option Rat) (capArg : Option Int)
    (st : KeyState) : Reply × KeyState :=
  match errArg with
  | none => (.err "ERR bad error rate", st)
  | some er =>
    match capArg with
    | none => (.err "ERR bad capacity", st)
    | some cap =>
      if (UINT32_MAX : Int) ≤ cap then (.err "ERR bad capacity", st)
      else if er = 0 ∨ cap = 0 then (.err "ERR capacity and error must not be 0", st)
      else
        let r := bfGetChain st
        if r.1 ≠ SB_EMPTY then (.err (statusStrerror r.1), st)
        else (.simple "OK", .bloom (SB_NewChain sizing (toSizeT cap) er))

/-- `CFReserve_RedisCommand`: parse capacity, key lookup, create. -/
def cfReserve (capArg : Option Int) (st : KeyState) : Reply × KeyState :=
  match capArg with
  | none => (.err "Bad capacity", st)
  | some cap =>
    let r := cfGetFilter st
    if r.1 ≠ SB_EMPTY then (.err (statusStrerror r.1), st)
    else (.simple "OK", .cuckoo (cfCreate (toSizeT cap)))

/-- `BFAdd_RedisCommand` for a single item: create the chain with the
module defaults when the key is absent, then add and reply 0/1. -/
def bfAdd (sizing : Nat → Rat → Nat × Nat) (bHash : Item → Nat × Nat) (cfg : ModuleConfig)
    (st : KeyState) (item : Item) : Reply × KeyState :=
  let r := bfGetChain st
  let sbO : Option BloomChain :=
    if r.1 = SB_EMPTY then some (SB_NewChain sizing cfg.initCapacity cfg.errorRate) else r.2
  match sbO with
  | none => (.err (statusStrerror r.1), st)
  | some sb =>
    let hs := bHash item
    let a := SBChain_Add sizing sb hs.1 hs.2
    (.int (if a.1 then 1 else 0), .bloom a.2)

/-- The reply switch at the end of `CFAdd_RedisCommand`: `Inserted` is
reported as 1, `Exists` as 0, `NoSpace` as the error "Filter is full". -/
def cfReplyOfStatus (r : CuckooInsertStatus × CuckooFilter) : Reply × KeyState :=
  match r.1 with
  | .Inserted => (.int 1, .cuckoo r.2)
  | .Exists => (.int 0, .cuckoo r.2)
  | .NoSpace => (.err "Filter is full", .cuckoo r.2)

/-- The insertion half of `CFAdd_RedisCommand`: run the (unique or
plain) insert and translate the status into the reply. -/
def cfAddWith (fpHash : Nat → Nat) (cHash : Item → Nat) (isNX : Bool) (cf : CuckooFilter)
    (item : Item) : Reply × KeyState :=
  cfReplyOfStatus (if isNX then CuckooFilter_InsertUnique fpHash cf (cHash item)
                   else CuckooFilter_Insert fpHash cf (cHash item))

/-- `CFAdd_RedisCommand` (shared by CF.ADD and CF.ADDNX).  `capArg` is
`none` when no capacity argument is given, `some none` when it fails to
parse, `some (some v)` when it parses to `v`. -/
def cfAdd (fpHash : Nat → Nat) (cHash : Item → Nat) (isNX : Bool) (capArg : Option (Option Int))
    (st : KeyState) (item : Item) : Reply × KeyState :=
  let r := cfGetFilter st
  if r.1 = SB_EMPTY then
    match capArg with
    | some none => (.err "CAPACITY must be a number", st)
    | some (some cap) => cfAddWith fpHash cHash isNX (cfCreate (toSizeT cap)) item
    | none => cfAddWith fpHash cHash isNX (cfCreate CFDefaultInitCapacity) item
  else
    match r.2 with
    | some cf => cfAddWith fpHash cHash isNX cf item
    | none => (.err (statusStrerror r.1), st)

/-- `BFCheck_RedisCommand` (BF.EXISTS / BF.MEXISTS): the loop replies
once per item, 0 whenever the lookup status is not `SB_OK`. -/
def bfCheck (bHash : Item → Nat × Nat) (isMulti : Bool) (st : KeyState) (items : List Item) :
    List Reply :=
  if (isMulti = false ∧ items.length ≠ 1) ∨ (isMulti = true ∧ items.length < 1) then
    [.wrongArity]
  else
    let r := bfGetChain st
    let hdr := if isMulti then [Reply.arrayHeader items.length] else []
    hdr ++ items.map (fun it =>
      match r.2 with
      | none => Reply.int 0
      | some sb => Reply.int (if SBChain_Check sb (bHash it).1 (bHash it).2 then 1 else 0))

/-- The reply for one item of `CFCheck_RedisCommand`. -/
def cfCheckOne (fpHash : Nat → Nat) (cHash : Item → Nat) (isCount : Bool)
    (cfO : Option CuckooFilter) (it : Item) : Reply :=
  match cfO with
  | none => .int 0
  | some cf =>
    if isCount then .int (CuckooFilter_Count fpHash cf (cHash it))
    else .int (if CuckooFilter_Check fpHash cf (cHash it) then 1 else 0)

/-- `CFCheck_RedisCommand` (CF.EXISTS / CF.MEXISTS / CF.COUNT).  The C
loop body ends in `return REDISMODULE_OK`, so after the (multi) array
header at most the first item's reply is emitted. -/
def cfCheck (fpHash : Nat → Nat) (cHash : Item → Nat) (isMulti isCount : Bool) (st : KeyState)
    (items : List Item) : List Reply :=
  if (isMulti = false ∧ items.length ≠ 1) ∨ (isMulti = true ∧ items.length < 1) then
    [.wrongArity]
  else
    let r := cfGetFilter st
    let hdr := if isMulti then [Reply.arrayHeader items.length] else []
    hdr ++ (match items with
            | [] => []
            | it :: _ => [cfCheckOne fpHash cHash isCount r.2 it])

/-- The info string built by `CFInfo_RedisCommand`. -/
def cfInfoString (cf : CuckooFilter) : String :=
  "bktsize:" ++ toString CUCKOO_BKTSIZE ++ " buckets:" ++ toString cf.numBuckets ++
    " items:" ++ toString cf.numItems ++ " deletes:" ++ toString cf.numDeletes ++
    " filters:" ++ toString cf.numFilters

/-- `CFInfo_RedisCommand` (CF.DEBUG) as written in the source: the guard
compares the lookup status against `REDISMODULE_OK`. -/
def cfInfo (st : KeyState) : Reply :=
  let r := cfGetFilter st
  if r.1 ≠ REDISMODULE_OK then .err (statusStrerror r.1)
  else .simple (cfInfoString (r.2.getD ⟨0, 0, 0, 0, []⟩))

/-- The spec's wording of the CF.DEBUG guard for comparison: the filter
is present, i.e. the status equals `SB_OK`. -/
def cfInfoSpec (st : KeyState) : Reply :=
  let r := cfGetFilter st
  if r.1 ≠ SB_OK then .err (statusStrerror r.1)
  else .simple (cfInfoString (r.2.getD ⟨0, 0, 0, 0, []⟩))

/-- `BFLoadChunk_RedisCommand`.  The header decoder and the chunk loader
live in `sb.c` (absent from the snapshot) and are abstract parameters;
the branch structure — header install only when the key is empty *and*
the cursor is exactly 1 — is the source's. -/
def bfLoadChunk (newFromHeader : List Nat → Except String BloomChain)
    (loadEnc : BloomChain → Int → List Nat → Except String BloomChain)
    (st : KeyState) (iterArg : Option Int) (buf : List Nat) : Reply × KeyState :=
  match iterArg with
  | none => (.err "ERR Second argument must be numeric", st)
  | some iter =>
    let r := bfGetChain st
    if r.1 = SB_EMPTY ∧ iter = 1 then
      match newFromHeader buf with
      | .error e => (.err e, st)
      | .ok sb => (.simple "OK", .bloom sb)
    else if r.1 ≠ SB_OK then (.err (statusStrerror r.1), st)
    else
      match r.2 with
      | none => (.err (statusStrerror r.1), st)
      | some sb =>
        match loadEnc sb iter buf with
        | .error e => (.err e, st)
        | .ok sb' => (.simple "OK", .bloom sb')

/-- One emitted `BF.LOADCHUNK` command of the AOF rewrite. -/
structure AofCmd where
  iter : Int
  payload : List Nat
deriving DecidableEq

/-- `BFAofRewrite`: the header is emitted with the literal cursor 0
(rebloom.c line 683), followed by the iterator's chunks.  The header
bytes and the chunk sequence come from `sb.c` and stay abstract. -/
def BFAofRewriteCmds (hdr : List Nat) (chunks : List (Int × List Nat)) : List AofCmd :=
  ⟨0, hdr⟩ :: chunks.map (fun c => ⟨c.1, c.2⟩)

/-- One value of the RDB stream: the host writes tagged unsigneds,
doubles and string buffers. -/
inductive RdbItem where
  | uns (n : Nat)
  | dbl (q : Rat)
  | buf (b : List Nat)
deriving DecidableEq

/-- `RedisModule_LoadUnsigned`. -/
def loadUnsigned : List RdbItem → Option (Nat × List RdbItem)
  | .uns n :: rest => some (n, rest)
  | _ => none

/-- `RedisModule_LoadDouble`. -/
def loadDouble : List RdbItem → Option (Rat × List RdbItem)
  | .dbl q :: rest => some (q, rest)
  | _ => none

/-- `RedisModule_LoadStringBuffer`. -/
def loadBuffer : List RdbItem → Option (List Nat × List RdbItem)
  | .buf b :: rest => some (b, rest)
  | _ => none

/-- C's truncation of a non-negative double to an unsigned integer. -/
def ratTrunc (q : Rat) : Nat := q.floor.toNat

/-- The `struct bloom` fields that the RDB hooks read and write. -/
structure Bloom where
  entries : Nat
  error : Rat
  hashes : Nat
  bpe : Rat
  bits : Nat
  n2 : Nat
  bf : List Nat
  bytes : Nat
deriving DecidableEq

/-- One `SBLink` of the chain: a bloom filter plus its fill size. -/
structure SBLink where
  inner : Bloom
  size : Nat
deriving DecidableEq

/-- The `SBChain` struct as serialized by the RDB hooks. -/
structure SBChain where
  size : Nat
  nfilters : Nat
  filters : List SBLink
deriving DecidableEq

/-- `BF_ENCODING_VERSION` from rebloom.c. -/
def BF_ENCODING_VERSION : Nat := 1

/-- The per-link loop of `BFRdbLoad`: under `encver = 0` no `bits`/`n2`
fields are read; `bits` is recomputed as `entries * bpe` (truncated) and
`n2` stays at its calloc value 0. -/
def bfLoadBitsN2 (encver entries : Nat) (bpe : Rat) (s : List RdbItem) :
    Option (Nat × Nat × List RdbItem) :=
  match encver with
  | 0 => some (ratTrunc ((entries : Rat) * bpe), 0, s)
  | _ + 1 =>
    match loadUnsigned s with
    | none => none
    | some (bits, s1) =>
      match loadUnsigned s1 with
      | none => none
      | some (n2, s2) => some (bits, n2, s2)

/-- The body of the per-link load loop of `BFRdbLoad`. -/
def bfLoadFilters (encver : Nat) : Nat → List RdbItem → Option (List SBLink × List RdbItem)
  | 0, s => some ([], s)
  | n + 1, s =>
    match loadUnsigned s with
    | none => none
    | some (entries, s1) =>
      match loadDouble s1 with
      | none => none
      | some (error, s2) =>
        match loadUnsigned s2 with
        | none => none
        | some (hashes, s3) =>
          match loadDouble s3 with
          | none => none
          | some (bpe, s4) =>
            match bfLoadBitsN2 encver entries bpe s4 with
            | none => none
            | some (bits, n2, s5) =>
              match loadBuffer s5 with
              | none => none
              | some (bf, s6) =>
                match loadUnsigned s6 with
                | none => none
                | some (lsize, s7) =>
                  match bfLoadFilters encver n s7 with
                  | none => none
                  | some (rest, s8) =>
                    some (⟨⟨entries, error, hashes, bpe, bits, n2, bf, bf.length⟩,
                           lsize⟩ :: rest, s8)

/-- `BFRdbLoad`: reject snapshots newer than the current encoding
version, then read the chain.  The source's sanity `assert` on
`nfilters` is modelled as failure. -/
def BFRdbLoad (encver : Nat) (s : List RdbItem) : Option SBChain :=
  if BF_ENCODING_VERSION < encver then none
  else
    match loadUnsigned s with
    | none => none
    | some (size, s1) =>
      match loadUnsigned s1 with
      | none => none
      | some (nfilters, s2) =>
        if nfilters < 1000 then
          match bfLoadFilters encver nfilters s2 with
          | none => none
          | some (links, _) => some ⟨size, nfilters, links⟩
        else none

/-- The items `BFRdbSave` writes for one link (encver 1 layout). -/
def bfSaveLink (l : SBLink) : List RdbItem :=
  [.uns l.inner.entries, .dbl l.inner.error, .uns l.inner.hashes, .dbl l.inner.bpe,
   .uns l.inner.bits, .uns l.inner.n2, .buf l.inner.bf, .uns l.size]

/-- The link items of `BFRdbSave`, concatenated. -/
def bfSaveLinks : List SBLink → List RdbItem
  | [] => []
  | l :: rest => bfSaveLink l ++ bfSaveLinks rest

/-- The full stream `BFRdbSave` writes. -/
def BFRdbSaveStream (sb : SBChain) : List RdbItem :=
  .uns sb.size :: .uns sb.nfilters :: bfSaveLinks sb.filters

/-- Modelled from the spec: the legacy (`encver = 0`) writer is not in
the repository; its per-link layout is dictated by the loader's
`encver = 0` path — no `bits`/`n2` items. -/
def bfSaveLinkLegacy (l : SBLink) : List RdbItem :=
  [.uns l.inner.entries, .dbl l.inner.error, .uns l.inner.hashes, .dbl l.inner.bpe,
   .buf l.inner.bf, .uns l.size]

/-- The legacy link items, concatenated. -/
def bfSaveLinksLegacy : List SBLink → List RdbItem
  | [] => []
  | l :: rest => bfSaveLinkLegacy l ++ bfSaveLinksLegacy rest

/-- A whole legacy (`encver = 0`) bloom snapshot. -/
def bfLegacyStream (sb : SBChain) : List RdbItem :=
  .uns sb.size :: .uns sb.nfilters :: bfSaveLinksLegacy sb.filters

/-- What the `encver = 0` loader makes of a link: `bits` recomputed from
`entries * bpe`, `n2` zero, `bytes` the buffer length. -/
def legacyLink (l : SBLink) : SBLink :=
  ⟨⟨l.inner.entries, l.inner.error, l.inner.hashes, l.inner.bpe,
    ratTrunc ((l.inner.entries : Rat) * l.inner.bpe), 0, l.inner.bf, l.inner.bf.length⟩,
   l.size⟩

/-- The buffer loop of `CFRdbLoad`; the source asserts each loaded
buffer has exactly `numBuckets * sizeof(CuckooBucket)` bytes. -/
def cfLoadBufs (numBuckets : Nat) : Nat → List RdbItem → Option (List (List Nat) × List RdbItem)
  | 0, s => some ([], s)
  | n + 1, s =>
    match loadBuffer s with
    | none => none
    | some (b, s') =>
      if b.length = CUCKOO_BKTSIZE * numBuckets then
        match cfLoadBufs numBuckets n s' with
        | none => none
        | some (bs, s'') => some (b :: bs, s'')
      else none

/-- `CFRdbLoad`: version gate, then `numFilters`, `numBuckets`,
`numItems` and the bucket arrays.  `numDeletes` is never read and keeps
its calloc value 0. -/
def CFRdbLoad (encver : Nat) (s : List RdbItem) : Option CuckooFilter :=
  if BF_ENCODING_VERSION < encver then none
  else
    match loadUnsigned s with
    | none => none
    | some (numFilters, s1) =>
      match loadUnsigned s1 with
      | none => none
      | some (numBuckets, s2) =>
        match loadUnsigned s2 with
        | none => none
        | some (numItems, s3) =>
          match cfLoadBufs numBuckets numFilters s3 with
          | none => none
          | some (bufs, _) => some ⟨numBuckets, numItems, 0, numFilters, bufs⟩

/-- The stream `CFRdbSave` writes: `numFilters`, `numBuckets`,
`numItems` and one buffer per sub-filter — `numDeletes` is omitted. -/
def CFRdbSaveStream (cf : CuckooFilter) : List RdbItem :=
  .uns cf.numFilters :: .uns cf.numBuckets :: .uns cf.numItems ::
    (cf.filters.take cf.numFilters).map RdbItem.buf

/-- A concrete fingerprint-hash instance for witnesses. -/
def fpHash0 : Nat → Nat := id

/-- A concrete item-hash instance for witnesses. -/
def cHash0 : Item → Nat := fun it => it.headD 0

/-- A concrete bloom double-hash instance for witnesses. -/
def bHash0 : Item → Nat × Nat := fun it => (it.headD 0, 1)

/-- A concrete bloom sizing instance for witnesses. -/
def sizing0 : Nat → Rat → Nat × Nat := fun _ _ => (4, 2)

/-- A concrete cuckoo filter: 2 buckets, one sub-filter, fingerprint 5
stored in bucket 1 (the home bucket of item `[5]` under `cHash0`). -/
def cfExample : CuckooFilter := ⟨2, 1, 0, 1, [[0, 0, 5, 0]]⟩

/-- C1: the source's `CFCheck_RedisCommand` loop ends its body with
`return`, so `CF.MEXISTS` with two items on a key holding a cuckoo
filter announces an array of 2 replies but emits only the first item's
result — the reply does not contain one check result per item. -/
theorem C1_cfmexists_truncated :
    cfCheck fpHash0 cHash0 true false (KeyState.cuckoo cfExample) [[5], [6]]
      = [Reply.arrayHeader 2, Reply.int 1]
    ∧ (cfCheck fpHash0 cHash0 true false (KeyState.cuckoo cfExample) [[5], [6]]).length = 2
    ∧ bfCheck bHash0 true (KeyState.cuckoo cfExample) [[5], [6]]
      = [Reply.arrayHeader 2, Reply.int 0, Reply.int 0] := by
  refine ⟨by decide, by decide, ?_⟩
  decide

/-- C9 counterexample: with an absent key, `CF.MEXISTS k a b` emits the
array header for two replies but only a single 0 — not one 0 per queried
item as the claim states. -/
theorem C9_counterexample :
    cfCheck fpHash0 cHash0 true false KeyState.empty [[1], [2]]
      = [Reply.arrayHeader 2, Reply.int 0]
    ∧ cfCheck fpHash0 cHash0 true false KeyState.empty [[1], [2]]
      ≠ [Reply.arrayHeader 2, Reply.int 0, Reply.int 0] := by
  constructor
  · decide
  · decide

/-- C9 (amended): on an absent key or a key of a different type,
BF.EXISTS, BF.MEXISTS, CF.EXISTS and CF.COUNT reply 0 for every queried
item and never raise a not-found or wrong-type error; CF.MEXISTS also
raises no error but — because of the early return — emits only the
array header and the first item's 0. -/
theorem C9_checks_no_error (bHash : Item → Nat × Nat) (fpHash : Nat → Nat)
    (cHash : Item → Nat) (st : KeyState) (items : List Item) (x : Item)
    (hne : items ≠ []) :
    ((bfGetChain st).1 ≠ SB_OK →
      bfCheck bHash false st [x] = [Reply.int 0]
      ∧ bfCheck bHash true st items
          = Reply.arrayHeader items.length :: items.map (fun _ => Reply.int 0))
    ∧ ((cfGetFilter st).1 ≠ SB_OK →
      cfCheck fpHash cHash false false st [x] = [Reply.int 0]
      ∧ cfCheck fpHash cHash false true st [x] = [Reply.int 0]
      ∧ cfCheck fpHash cHash true false st items
          = [Reply.arrayHeader items.length, Reply.int 0]) := by
  obtain ⟨it, items', rfl⟩ := List.exists_cons_of_ne_nil hne
  constructor
  · intro h
    cases st <;> simp_all [bfGetChain, bfCheck, SB_OK, SB_EMPTY, SB_MISMATCH]
  · intro h
    cases st <;>
      simp_all [cfGetFilter, cfCheck, cfCheckOne, SB_OK, SB_EMPTY, SB_MISMATCH]

/-- C9 witness: the amended statement at concrete inputs. -/
theorem C9_checks_no_error_witness :
    bfCheck bHash0 true KeyState.empty [[1], [2]]
      = [Reply.arrayHeader 2, Reply.int 0, Reply.int 0]
    ∧ cfCheck fpHash0 cHash0 true false KeyState.empty [[1], [2]]
      = [Reply.arrayHeader 2, Reply.int 0] :=
  ⟨((C9_checks_no_error bHash0 fpHash0 cHash0 KeyState.empty [[1], [2]] [3]
      (by decide)).1 (by decide)).2,
   (((C9_checks_no_error bHash0 fpHash0 cHash0 KeyState.empty [[1], [2]] [3]
      (by decide)).2 (by decide)).2).2⟩

/-- C8: the source guard `status != REDISMODULE_OK` in
`CFInfo_RedisCommand` coincides with the spec's intended guard
`status != SB_OK` (both constants are 0): CF.DEBUG replies a status
error exactly when the key does not hold a cuckoo filter, and the info
string otherwise. -/
theorem C8_cfinfo_guard (st : KeyState) :
    cfInfo st = cfInfoSpec st
    ∧ ((cfInfo st).isErr = true ↔ isCuckooState st = false)
    ∧ (∀ cf, st = KeyState.cuckoo cf → cfInfo st = Reply.simple (cfInfoString cf)) := by
  refine ⟨rfl, ?_, ?_⟩
  · cases st <;> simp [cfInfo, cfGetFilter, isCuckooState, Reply.isErr,
      REDISMODULE_OK, SB_EMPTY, SB_MISMATCH, SB_OK]
  · rintro cf rfl
    simp [cfInfo, cfGetFilter, REDISMODULE_OK, SB_OK]

/-- Argument validity for BF.RESERVE: both arguments parse, the capacity
is below `UINT32_MAX` and neither the rate nor the capacity is zero. -/
def bfArgsOk : Option Rat → Option Int → Bool
  | some er, some cap =>
    if (UINT32_MAX : Int) ≤ cap then false
    else if er = 0 ∨ cap = 0 then false
    else true
  | _, _ => false

/-- Whether a reply is one of the bad-argument errors of the two
reserve commands. -/
def badArgReply : Reply → Bool
  | .err s =>
    (s == "ERR bad error rate") || (s == "ERR bad capacity") ||
      (s == "ERR capacity and error must not be 0") || (s == "Bad capacity")
  | _ => false

/-- A concrete bloom chain for witnesses. -/
def sbExample : BloomChain := SB_NewChain sizing0 100 1

/-- C3: a RESERVE (BF or CF) on a key that already holds a value replies
an error and leaves the stored value unchanged; with well-formed
arguments the error is "ERR item exists" when the key holds a filter of
the command's own type and the wrong-type error otherwise. -/
theorem C3_reserve_existing (sizing : Nat → Rat → Nat × Nat) (st : KeyState)
    (h : st ≠ KeyState.empty) :
    (∀ e c, (bfReserve sizing e c st).2 = st ∧ (bfReserve sizing e c st).1.isErr = true)
    ∧ (∀ c, (cfReserve c st).2 = st ∧ (cfReserve c st).1.isErr = true)
    ∧ (∀ e c, bfArgsOk e c = true →
        (bfReserve sizing e c st).1 =
          Reply.err (if isBloomState st then "ERR item exists" else wrongTypeMsg))
    ∧ (∀ c : Int, (cfReserve (some c) st).1 =
        Reply.err (if isCuckooState st then "ERR item exists" else wrongTypeMsg)) := by
  refine ⟨?_, ?_, ?_, ?_⟩
  · intro e c
    match e, c with
    | none, _ => simp [bfReserve, Reply.isErr]
    | some er, none => simp [bfReserve, Reply.isErr]
    | some er, some cap =>
      cases st <;> simp only [bfReserve, bfGetChain] <;> split_ifs <;>
        simp_all [Reply.isErr, statusStrerror, SB_OK, SB_EMPTY, SB_MISMATCH, SB_MISSING]
  · intro c
    match c with
    | none => simp [cfReserve, Reply.isErr]
    | some cap =>
      cases st <;> simp only [cfReserve, cfGetFilter] <;> split_ifs <;>
        simp_all [Reply.isErr, statusStrerror, SB_OK, SB_EMPTY, SB_MISMATCH, SB_MISSING]
  · intro e c hok
    match e, c with
    | some er, some cap =>
      simp only [bfArgsOk] at hok
      split_ifs at hok
      cases st <;> simp only [bfReserve, bfGetChain] <;> split_ifs <;>
        simp_all [statusStrerror, isBloomState, SB_OK, SB_EMPTY, SB_MISMATCH, SB_MISSING]
  · intro c
    cases st <;> simp only [cfReserve, cfGetFilter] <;> split_ifs <;>
      simp_all [statusStrerror, isCuckooState, SB_OK, SB_EMPTY, SB_MISMATCH, SB_MISSING]

/-- C3 witness: both reserve commands at concrete occupied keys. -/
theorem C3_reserve_existing_witness :
    (bfReserve sizing0 (some 1) (some 10) (KeyState.bloom sbExample)).1
      = Reply.err "ERR item exists"
    ∧ (cfReserve (some 10) (KeyState.bloom sbExample)).1 = Reply.err wrongTypeMsg
    ∧ (cfReserve (some 10) (KeyState.cuckoo cfExample)).1 = Reply.err "ERR item exists"
    ∧ (bfReserve sizing0 (some 1) (some 10) (KeyState.cuckoo cfExample)).2
      = KeyState.cuckoo cfExample :=
  ⟨by
    have h := (C3_reserve_existing sizing0 (KeyState.bloom sbExample) (by simp)).2.2.1
      (some 1) (some 10) (by decide)
    simpa [isBloomState] using h,
   by
    have h := (C3_reserve_existing sizing0 (KeyState.bloom sbExample) (by simp)).2.2.2 10
    simpa [isCuckooState] using h,
   by
    have h := (C3_reserve_existing sizing0 (KeyState.cuckoo cfExample) (by decide)).2.2.2 10
    simpa [isCuckooState] using h,
   ((C3_reserve_existing sizing0 (KeyState.cuckoo cfExample) (by decide)).1
      (some 1) (some 10)).1⟩

/-- C5 counterexample: `CF.RESERVE k 0` is not rejected — it replies OK
and creates a filter — and `BF.RESERVE` accepts a negative error rate
(the source only compares the rate against 0), so the claim as stated
is false for both parts it quantifies over. -/
theorem C5_counterexample :
    cfReserve (some 0) KeyState.empty = (Reply.simple "OK", KeyState.cuckoo (cfCreate 0))
    ∧ badArgReply (cfReserve (some 0) KeyState.empty).1 = false
    ∧ (cfReserve (some 0) KeyState.empty).2 ≠ KeyState.empty
    ∧ bfReserve sizing0 (some (-1 : Rat)) (some 10) KeyState.empty
      = (Reply.simple "OK", KeyState.bloom (SB_NewChain sizing0 10 (-1 : Rat)))
    ∧ badArgReply (bfReserve sizing0 (some (-1 : Rat)) (some 10) KeyState.empty).1
      = false := by
  refine ⟨by decide, by decide, by decide, by rfl, ?_⟩
  have h : bfReserve sizing0 (some (-1 : Rat)) (some 10) KeyState.empty
      = (Reply.simple "OK", KeyState.bloom (SB_NewChain sizing0 10 (-1 : Rat))) := by rfl
  rw [h]
  decide

/-- C5 (amended): BF.RESERVE rejects a non-numeric, zero or
≥ `UINT32_MAX` capacity and a non-numeric or zero error rate as
bad-argument errors without creating a filter; CF.RESERVE rejects only a
non-numeric capacity.  (Zero or out-of-range CF capacities and negative
BF error rates are not rejected.) -/
theorem C5_reserve_validation (sizing : Nat → Rat → Nat × Nat) (st : KeyState)
    (e : Option Rat) (c : Option Int) :
    ((c = none ∨ c = some 0 ∨ (∃ v, c = some v ∧ (4294967296 : Int) ≤ v)) →
      badArgReply (bfReserve sizing e c st).1 = true ∧ (bfReserve sizing e c st).2 = st)
    ∧ ((e = none ∨ e = some 0) →
      badArgReply (bfReserve sizing e c st).1 = true ∧ (bfReserve sizing e c st).2 = st)
    ∧ cfReserve none st = (Reply.err "Bad capacity", st) := by
  refine ⟨?_, ?_, rfl⟩
  · rintro (rfl | rfl | ⟨v, rfl, hv⟩)
    · match e with
      | none => exact ⟨rfl, rfl⟩
      | some er => exact ⟨rfl, rfl⟩
    · match e with
      | none => exact ⟨rfl, rfl⟩
      | some er =>
        simp only [bfReserve]
        split_ifs with h1 h2 <;> simp_all [badArgReply]
    · match e with
      | none => exact ⟨rfl, rfl⟩
      | some er =>
        have hle : (UINT32_MAX : Int) ≤ v := by
          have : (UINT32_MAX : Int) ≤ 4294967296 := by norm_num [UINT32_MAX]
          omega
        simp only [bfReserve]
        rw [if_pos hle]
        exact ⟨rfl, rfl⟩
  · rintro (rfl | rfl)
    · exact ⟨rfl, rfl⟩
    · match c with
      | none => exact ⟨rfl, rfl⟩
      | some cap =>
        simp only [bfReserve]
        split_ifs with h1 h2 <;> simp_all [badArgReply]

/-- C5 witness: the amended validation at concrete inputs. -/
theorem C5_reserve_validation_witness :
    badArgReply (bfReserve sizing0 (some 1) (some 0) KeyState.empty).1 = true
    ∧ (bfReserve sizing0 (some 1) (some 0) KeyState.empty).2 = KeyState.empty
    ∧ badArgReply (bfReserve sizing0 (some 0) (some 7) KeyState.empty).1 = true
    ∧ cfReserve none KeyState.empty = (Reply.err "Bad capacity", KeyState.empty) :=
  ⟨((C5_reserve_validation sizing0 KeyState.empty (some 1) (some 0)).1
      (Or.inr (Or.inl rfl))).1,
   ((C5_reserve_validation sizing0 KeyState.empty (some 1) (some 0)).1
      (Or.inr (Or.inl rfl))).2,
   ((C5_reserve_validation sizing0 KeyState.empty (some 0) (some 7)).2.1
      (Or.inr rfl)).1,
   (C5_reserve_validation sizing0 KeyState.empty (some 1) none).2.2⟩

/-- An empty concrete cuckoo filter (2 buckets, one sub-filter). -/
def cfEmptyExample : CuckooFilter := ⟨2, 0, 0, 1, [[0, 0, 0, 0]]⟩

/-- C4: CF.ADDNX on an item already present replies 0 and leaves the
filter — in particular `numItems` — unchanged (`InsertUnique` returns
`Exists` without mutation); CF.ADD replies 1 whenever the insertion
returns `Inserted`; and a `NoSpace` insertion result is surfaced by the
command's reply switch as the error "Filter is full". -/
theorem C4_cfadd_semantics (fpHash : Nat → Nat) (cHash : Item → Nat) (item : Item)
    (cf : CuckooFilter)
    (hpresent : CuckooFilter_Check fpHash cf (cHash item) = true) :
    cfAdd fpHash cHash true none (KeyState.cuckoo cf) item = (Reply.int 0, KeyState.cuckoo cf)
    ∧ CuckooFilter_InsertUnique fpHash cf (cHash item) = (CuckooInsertStatus.Exists, cf)
    ∧ (∀ cf' cf2, CuckooFilter_Insert fpHash cf' (cHash item)
          = (CuckooInsertStatus.Inserted, cf2) →
        cfAdd fpHash cHash false none (KeyState.cuckoo cf') item
          = (Reply.int 1, KeyState.cuckoo cf2))
    ∧ (∀ cf2, cfReplyOfStatus (CuckooInsertStatus.NoSpace, cf2)
        = (Reply.err "Filter is full", KeyState.cuckoo cf2)) := by
  refine ⟨?_, ?_, ?_, fun cf2 => rfl⟩
  · simp [cfAdd, cfGetFilter, cfAddWith, cfReplyOfStatus, CuckooFilter_InsertUnique,
      hpresent, SB_OK, SB_EMPTY]
  · simp [CuckooFilter_InsertUnique, hpresent]
  · intro cf' cf2 hins
    simp [cfAdd, cfGetFilter, cfAddWith, cfReplyOfStatus, hins, SB_OK, SB_EMPTY]

/-- C4 witness: CF.ADDNX at a concrete filter already holding the item,
and CF.ADD inserting that item into a concrete empty filter. -/
theorem C4_cfadd_semantics_witness :
    CuckooFilter_Check fpHash0 cfExample (cHash0 [5]) = true
    ∧ cfAdd fpHash0 cHash0 true none (KeyState.cuckoo cfExample) [5]
      = (Reply.int 0, KeyState.cuckoo cfExample)
    ∧ cfAdd fpHash0 cHash0 false none (KeyState.cuckoo cfEmptyExample) [5]
      = (Reply.int 1, KeyState.cuckoo cfExample) :=
  ⟨by decide,
   (C4_cfadd_semantics fpHash0 cHash0 [5] cfExample (by decide)).1,
   (C4_cfadd_semantics fpHash0 cHash0 [5] cfExample (by decide)).2.2.1 cfEmptyExample
     cfExample (by decide)⟩

/-- C6: BF.ADD on an absent key first creates a chain from the
module-level defaults (0.01 / 100 at compile time, overridable by the
`error_rate` / `initial_size` load-time options) and then adds, replying
1 when the newest layer reports the item as new and 0 when it was
already present; no key state makes it reply "ERR not found". -/
theorem C6_bfadd_absent (sizing : Nat → Rat → Nat × Nat) (bHash : Item → Nat × Nat)
    (cfg : ModuleConfig) (item : Item) :
    defaultConfig = ⟨1 / 100, 100⟩
    ∧ bfAdd sizing bHash cfg KeyState.empty item =
        (Reply.int
          (if (SBChain_Add sizing (SB_NewChain sizing cfg.initCapacity cfg.errorRate)
                (bHash item).1 (bHash item).2).1 then 1 else 0),
         KeyState.bloom
          (SBChain_Add sizing (SB_NewChain sizing cfg.initCapacity cfg.errorRate)
            (bHash item).1 (bHash item).2).2)
    ∧ (∀ st, (bfAdd sizing bHash cfg st item).1 ≠ Reply.err "ERR not found")
    ∧ (∀ (v : Int) rest cfg', 0 < v →
        processLoadArgs (LoadOpt.initialSize (some v) :: rest) cfg'
          = processLoadArgs rest { cfg' with initCapacity := v.toNat })
    ∧ (∀ (d : Rat) rest cfg', 0 < d →
        processLoadArgs (LoadOpt.errorRate (some d) :: rest) cfg'
          = processLoadArgs rest { cfg' with errorRate := d }) := by
  refine ⟨rfl, rfl, ?_, ?_, ?_⟩
  · intro st
    cases st <;>
      simp [bfAdd, bfGetChain, statusStrerror, wrongTypeMsg,
        SB_OK, SB_EMPTY, SB_MISMATCH, SB_MISSING]
  · intro v rest cfg' hv
    simp [processLoadArgs, hv]
  · intro d rest cfg' hd
    simp [processLoadArgs, hd]

/-- C6 witness: the creation-and-add behaviour and the two configuration
overrides at concrete inputs. -/
theorem C6_bfadd_absent_witness :
    bfAdd sizing0 bHash0 defaultConfig KeyState.empty [5] =
      (Reply.int
        (if (SBChain_Add sizing0 (SB_NewChain sizing0 defaultConfig.initCapacity
              defaultConfig.errorRate) (bHash0 [5]).1 (bHash0 [5]).2).1 then 1 else 0),
       KeyState.bloom
        (SBChain_Add sizing0 (SB_NewChain sizing0 defaultConfig.initCapacity
          defaultConfig.errorRate) (bHash0 [5]).1 (bHash0 [5]).2).2)
    ∧ processLoadArgs [LoadOpt.initialSize (some 200)] defaultConfig
      = some ⟨1 / 100, 200⟩
    ∧ processLoadArgs [LoadOpt.errorRate (some 2)] defaultConfig = some ⟨2, 100⟩ :=
  ⟨(C6_bfadd_absent sizing0 bHash0 defaultConfig [5]).2.1,
   (C6_bfadd_absent sizing0 bHash0 defaultConfig [5]).2.2.2.1 200 [] defaultConfig
     (by decide),
   (C6_bfadd_absent sizing0 bHash0 defaultConfig [5]).2.2.2.2 2 [] defaultConfig
     (by decide)⟩

/-- C2: the AOF rewrite emits the header command with cursor 0, but the
loader installs a header on an absent key only when the cursor is
exactly 1; replaying the first emitted command against an absent key
therefore replies "ERR not found" and installs nothing, while the same
payload at cursor 1 would be accepted. -/
theorem C2_aof_replay_fails (newFromHeader : List Nat → Except String BloomChain)
    (loadEnc : BloomChain → Int → List Nat → Except String BloomChain)
    (hdr : List Nat) (chunks : List (Int × List Nat)) (sb : BloomChain)
    (hok : newFromHeader hdr = Except.ok sb) :
    (BFAofRewriteCmds hdr chunks).head? = some ⟨0, hdr⟩
    ∧ bfLoadChunk newFromHeader loadEnc KeyState.empty (some 0) hdr
      = (Reply.err "ERR not found", KeyState.empty)
    ∧ bfLoadChunk newFromHeader loadEnc KeyState.empty (some 1) hdr
      = (Reply.simple "OK", KeyState.bloom sb) := by
  refine ⟨rfl, ?_, ?_⟩
  · simp [bfLoadChunk, bfGetChain, statusStrerror, SB_OK, SB_EMPTY, SB_MISSING]
  · simp [bfLoadChunk, bfGetChain, hok, SB_OK, SB_EMPTY]

/-- C2 witness: the replay divergence at a concrete header decoder. -/
theorem C2_aof_replay_fails_witness :
    bfLoadChunk (fun _ => Except.ok sbExample) (fun sb _ _ => Except.ok sb)
      KeyState.empty (some 0) [7] = (Reply.err "ERR not found", KeyState.empty)
    ∧ bfLoadChunk (fun _ => Except.ok sbExample) (fun sb _ _ => Except.ok sb)
      KeyState.empty (some 1) [7] = (Reply.simple "OK", KeyState.bloom sbExample) :=
  ⟨(C2_aof_replay_fails (fun _ => Except.ok sbExample) (fun sb _ _ => Except.ok sb)
      [7] [] sbExample rfl).2.1,
   (C2_aof_replay_fails (fun _ => Except.ok sbExample) (fun sb _ _ => Except.ok sb)
      [7] [] sbExample rfl).2.2⟩

theorem cfLoadBufs_of_save (nb : Nat) (fs : List (List Nat)) (rest : List RdbItem)
    (h : ∀ f ∈ fs, f.length = CUCKOO_BKTSIZE * nb) :
    cfLoadBufs nb fs.length (fs.map RdbItem.buf ++ rest) = some (fs, rest) := by
  induction fs with
  | nil => rfl
  | cons f fs ih =>
    simp only [List.map_cons, List.cons_append, List.length_cons, cfLoadBufs, loadBuffer]
    rw [if_pos (h f (List.mem_cons_self f fs))]
    rw [ih (fun g hg => h g (List.mem_cons_of_mem f hg))]

theorem bfLoadFilters_save (ls : List SBLink) (rest : List RdbItem)
    (h : ∀ l ∈ ls, l.inner.bytes = l.inner.bf.length) :
    bfLoadFilters 1 ls.length (bfSaveLinks ls ++ rest) = some (ls, rest) := by
  induction ls with
  | nil => rfl
  | cons l ls ih =>
    obtain ⟨⟨entries, error, hashes, bpe, bits, n2, bf, bytes⟩, lsize⟩ := l
    have hb : bytes = bf.length := h _ (List.mem_cons_self _ ls)
    subst hb
    have ih' := ih (fun g hg => h g (List.mem_cons_of_mem _ hg))
    simp only [bfSaveLinks, bfSaveLink, List.cons_append, List.length_cons,
      List.nil_append, bfLoadFilters, bfLoadBitsN2, loadUnsigned, loadDouble,
      loadBuffer, ih']

theorem bfLoadFilters_legacy (ls : List SBLink) (rest : List RdbItem) :
    bfLoadFilters 0 ls.length (bfSaveLinksLegacy ls ++ rest)
      = some (ls.map legacyLink, rest) := by
  induction ls with
  | nil => rfl
  | cons l ls ih =>
    simp only [bfSaveLinksLegacy, bfSaveLinkLegacy, List.cons_append,
      List.length_cons, List.map_cons, List.nil_append, bfLoadFilters,
      bfLoadBitsN2, loadUnsigned, loadDouble, loadBuffer, legacyLink, ih]

/-- C7: RDB load of either filter type yields no object when the
snapshot's `encver` exceeds the current encoding version 1; an
`encver = 1` bloom snapshot round-trips exactly (`bits` and `n2` are
read from the stream), while an `encver = 0` snapshot is loaded by
recomputing `bits = entries * bpe` (truncated) and leaving `n2 = 0`. -/
theorem C7_rdb_versioning (sb : SBChain)
    (hlen : ∀ l ∈ sb.filters, l.inner.bytes = l.inner.bf.length)
    (hn : sb.nfilters = sb.filters.length) (hcap : sb.nfilters < 1000) :
    (∀ v s, BF_ENCODING_VERSION < v → BFRdbLoad v s = none)
    ∧ (∀ v s, BF_ENCODING_VERSION < v → CFRdbLoad v s = none)
    ∧ BFRdbLoad 1 (BFRdbSaveStream sb) = some sb
    ∧ BFRdbLoad 0 (bfLegacyStream sb)
      = some ⟨sb.size, sb.nfilters, sb.filters.map legacyLink⟩ := by
  obtain ⟨size, nfilters, filters⟩ := sb
  simp only at hlen hn hcap
  subst hn
  refine ⟨?_, ?_, ?_, ?_⟩
  · intro v s hv
    simp [BFRdbLoad, hv]
  · intro v s hv
    simp [CFRdbLoad, hv]
  · have hload := bfLoadFilters_save filters [] hlen
    rw [List.append_nil] at hload
    simp [BFRdbLoad, BFRdbSaveStream, BF_ENCODING_VERSION, loadUnsigned, hcap, hload]
  · have hload := bfLoadFilters_legacy filters []
    rw [List.append_nil] at hload
    simp [BFRdbLoad, bfLegacyStream, BF_ENCODING_VERSION, loadUnsigned, hcap, hload]

/-- A concrete single-layer chain struct for the RDB witnesses. -/
def sbRdbExample : SBChain := ⟨3, 1, [⟨⟨10, 1, 2, 2, 20, 0, [1, 2, 3], 3⟩, 4⟩]⟩

/-- C7 witness: version gate and both load paths at concrete streams. -/
theorem C7_rdb_versioning_witness :
    BFRdbLoad 2 [] = none
    ∧ CFRdbLoad 2 [] = none
    ∧ BFRdbLoad 1 (BFRdbSaveStream sbRdbExample) = some sbRdbExample
    ∧ BFRdbLoad 0 (bfLegacyStream sbRdbExample)
      = some ⟨3, 1, [legacyLink ⟨⟨10, 1, 2, 2, 20, 0, [1, 2, 3], 3⟩, 4⟩]⟩ :=
  ⟨(C7_rdb_versioning sbRdbExample (by decide) rfl (by decide)).1 2 [] (by decide),
   (C7_rdb_versioning sbRdbExample (by decide) rfl (by decide)).2.1 2 [] (by decide),
   (C7_rdb_versioning sbRdbExample (by decide) rfl (by decide)).2.2.1,
   (C7_rdb_versioning sbRdbExample (by decide) rfl (by decide)).2.2.2⟩

/-- C10: the cuckoo RDB format omits `numDeletes`: a save/load cycle
returns the filter with `numDeletes = 0` and `numFilters`, `numBuckets`,
`numItems` and every bucket-array byte unchanged. -/
theorem C10_cf_rdb_roundtrip (cf : CuckooFilter)
    (hn : cf.numFilters = cf.filters.length)
    (hb : ∀ f ∈ cf.filters, f.length = CUCKOO_BKTSIZE * cf.numBuckets) :
    CFRdbLoad BF_ENCODING_VERSION (CFRdbSaveStream cf)
      = some { cf with numDeletes := 0 } := by
  obtain ⟨numBuckets, numItems, numDeletes, numFilters, filters⟩ := cf
  simp only at hn hb
  subst hn
  have hload := cfLoadBufs_of_save numBuckets filters [] hb
  rw [List.append_nil] at hload
  simp [CFRdbLoad, CFRdbSaveStream, BF_ENCODING_VERSION, loadUnsigned,
    List.take_length, hload]

/-- C10 witness: a concrete filter with a nonzero delete counter. -/
theorem C10_cf_rdb_roundtrip_witness :
    CFRdbLoad BF_ENCODING_VERSION
      (CFRdbSaveStream ⟨2, 1, 5, 1, [[0, 0, 5, 0]]⟩)
      = some ⟨2, 1, 0, 1, [[0, 0, 5, 0]]⟩ :=
  C10_cf_rdb_roundtrip ⟨2, 1, 5, 1, [[0, 0, 5, 0]]⟩ rfl (by decide)

/-- C8 witness: CF.DEBUG at a concrete cuckoo filter and at concrete
non-cuckoo key states. -/
theorem C8_cfinfo_guard_witness :
    cfInfo (KeyState.cuckoo cfExample) = Reply.simple (cfInfoString cfExample)
    ∧ (cfInfo KeyState.empty).isErr = true
    ∧ (cfInfo (KeyState.bloom sbExample)).isErr = true :=
  ⟨(C8_cfinfo_guard (KeyState.cuckoo cfExample)).2.2 cfExample rfl,
   (C8_cfinfo_guard KeyState.empty).2.1.mpr (by decide),
   (C8_cfinfo_guard (KeyState.bloom sbExample)).2.1.mpr (by simp [isCuckooState])⟩
